import Mathlib

/-!
Verification of the Pool Lifecycle & Provider Abstraction subsystem of the
lightweight-php repository: a shallow embedding of the Go sources
(manager/pool.go, db/models.go, db/database.go, provider/*.go, templates/*)
together with theorems settling the frozen specification claims.

Go conventions are modelled as follows: `error` results become
`Except String`, nil-able pointers become `Option`, the SQLite registry
becomes a list of rows, and the filesystem / supervisor side effects of the
pool manager become explicit state passing over a `World` record.
-/

namespace LPHP

/-! ## Go string helpers used by the sources -/

/-- `strings.ReplaceAll(version, ".", "")` as used by every provider to turn
"8.2" into "82". -/
def versionNum (s : String) : String :=
  String.mk (s.data.filter (fun c => c ≠ '.'))

/-- Strip `pre` from the front of `s`, when it is a prefix. -/
def dropPre : List Char → List Char → Option (List Char)
  | [], s => some s
  | _ :: _, [] => none
  | p :: ps, c :: cs => if p = c then dropPre ps cs else none

/-- Splitting kernel for `strSplitOn`: `cur` is the reversed current
segment, the fuel dominates the remaining length. -/
def splitAux (sep : List Char) : Nat → List Char → List Char → List (List Char)
  | _, cur, [] => [cur.reverse]
  | 0, cur, rest => [cur.reverse ++ rest]
  | fuel + 1, cur, c :: cs =>
    match dropPre sep (c :: cs) with
    | some rest => cur.reverse :: splitAux sep fuel [] rest
    | none => splitAux sep fuel (c :: cur) cs

/-- `s.splitOn sep` (Go `strings.Split`) for a non-empty separator,
implemented structurally so that it evaluates by reduction. -/
def strSplitOn (s sep : String) : List String :=
  (splitAux sep.data s.data.length [] s.data).map String.mk

/-- `String.intercalate`, structurally. -/
def strIntercalate (sep : String) : List String → String
  | [] => ""
  | [x] => x
  | x :: xs => x ++ sep ++ strIntercalate sep xs

/-- `String.trim`, structurally. -/
def strTrim (s : String) : String :=
  String.mk (((s.data.dropWhile Char.isWhitespace).reverse.dropWhile
    Char.isWhitespace).reverse)

/-- `String.startsWith`, structurally. -/
def strStartsWith (s pre : String) : Bool :=
  pre.data.isPrefixOf s.data

/-- `String.drop`, structurally. -/
def strDrop (s : String) (n : Nat) : String :=
  String.mk (s.data.drop n)

/-- Lexicographic order on character lists. -/
def charListLt : List Char → List Char → Bool
  | _, [] => false
  | [], _ :: _ => true
  | a :: as, b :: bs =>
    if a.toNat < b.toNat then true
    else if b.toNat < a.toNat then false
    else charListLt as bs

/-- Go's `<` on strings: lexicographic byte comparison (the version strings
compared are ASCII, where byte and character order agree). -/
def goStrLt (a b : String) : Bool :=
  charListLt a.data b.data

/-- `filepath.Join` on the already-clean, slash-free components the providers
pass to it (no cleaning is ever needed for those arguments). -/
def fpJoin : List String → String
  | [] => ""
  | [p] => p
  | p :: ps => p ++ "/" ++ fpJoin ps

/-- `filepath.Dir` for the absolute, already-clean paths the manager passes to
it: everything before the final slash. -/
def fpDir (p : String) : String :=
  strIntercalate "/" ((strSplitOn p "/").dropLast)

/-! ## system/os.go -/

/-- `system.OSFamily` (system/os.go): the two supported OS families. -/
inductive OSFamily where
  | rhel
  | debian
deriving DecidableEq, Repr

/-- The string the manager stores for an OS family when auto-registering a
PHP version (manager/pool.go, CreatePool). -/
def osFamilyStr : OSFamily → String
  | .rhel => "rhel"
  | .debian => "debian"

/-! ## provider/types.go -/

/-- `provider.ProviderType`: the closed set of provider identifiers. -/
inductive ProviderType where
  | remi
  | lsphp
  | altphp
  | docker
deriving DecidableEq, Repr

/-- The `switch providerType` validation at the top of
`PoolManager.CreatePool` (manager/pool.go). -/
def parseProviderType (s : String) : Option ProviderType :=
  if s = "remi" then some .remi
  else if s = "lsphp" then some .lsphp
  else if s = "alt-php" then some .altphp
  else if s = "docker" then some .docker
  else none

/-! ## provider/remi.go path logic -/

/-- `RemiProvider.GetServiceName`. -/
def RemiProvider.GetServiceName (fam : OSFamily) (version : String) : String :=
  if fam = .rhel then "php" ++ versionNum version ++ "-php-fpm"
  else "php" ++ version ++ "-fpm"

/-- `RemiProvider.GetSocketPath`. -/
def RemiProvider.GetSocketPath (fam : OSFamily) (username version : String) : String :=
  if fam = .rhel then
    "/var/opt/remi/php" ++ versionNum version ++ "/run/php-fpm/" ++ username ++ ".sock"
  else
    "/var/run/php/php" ++ version ++ "-" ++ username ++ ".sock"

/-- `RemiProvider.GetConfigPath`. -/
def RemiProvider.GetConfigPath (fam : OSFamily) (username version : String) : String :=
  if fam = .rhel then
    fpJoin ["/etc/opt/remi", "php" ++ versionNum version, "php-fpm.d", username ++ ".conf"]
  else
    fpJoin ["/etc/php", version, "fpm/pool.d", username ++ ".conf"]

/-- The version gate at the top of `RemiProvider.InstallPHP`
(provider/remi.go lines 55-74): versions below "7.4" in Go's lexicographic
string order are rejected, everything else passes. -/
def RemiProvider.versionCheck (version : String) : Except String Unit :=
  match strSplitOn version "." with
  | major :: minor :: _ =>
    if goStrLt major "7" || (major == "7" && goStrLt minor "4") then
      .error ("PHP version " ++ version ++ " is not supported. Minimum version is 7.4")
    else .ok ()
  | _ => .error ("invalid PHP version format: " ++ version)

/-! ## LiteSpeed provider path logic -/

/-- `LiteSpeedProvider.GetServiceName`: always the `lsws` unit. -/
def LiteSpeedProvider.GetServiceName (_version : String) : String := "lsws"

/-- `LiteSpeedProvider.GetSocketPath`. -/
def LiteSpeedProvider.GetSocketPath (username version : String) : String :=
  "/tmp/lsphp" ++ versionNum version ++ "-" ++ username ++ ".sock"

/-- `LiteSpeedProvider.GetConfigPath`. -/
def LiteSpeedProvider.GetConfigPath (username version : String) : String :=
  fpJoin ["/usr/local/lsws/conf", username ++ "-" ++ version ++ ".conf"]

/-! ## Alt-PHP provider -/

/-- `AltPHPProvider.GetServiceName`. -/
def AltPHPProvider.GetServiceName (version : String) : String :=
  "alt-php" ++ versionNum version ++ "-php-fpm"

/-- `AltPHPProvider.GetSocketPath`. -/
def AltPHPProvider.GetSocketPath (username version : String) : String :=
  "/var/run/alt-php" ++ versionNum version ++ "/" ++ username ++ ".sock"

/-- `AltPHPProvider.GetConfigPath`. The source passes the literal string
"/etc/opt/alt/php%s" (an unformatted verb) to `filepath.Join`; the embedding
keeps that literal faithfully. -/
def AltPHPProvider.GetConfigPath (username version : String) : String :=
  fpJoin ["/etc/opt/alt/php%s", versionNum version, "php-fpm.d", username ++ ".conf"]

/-- `AltPHPProvider.InstallPHP`: unconditionally a not-implemented error. -/
def AltPHPProvider.InstallPHP (_version : String) : Except String Unit :=
  .error "Alt-PHP provider not yet implemented"

/-- `AltPHPProvider.ListInstalledPHP`: returns `([]string{}, nil)`, i.e. an
empty list with a nil error. -/
def AltPHPProvider.ListInstalledPHP : Except String (List String) :=
  .ok []

/-- `AltPHPProvider.ListAvailablePHP`: hardcoded list, nil error. -/
def AltPHPProvider.ListAvailablePHP : Except String (List String) :=
  .ok ["8.3", "8.2", "8.1", "8.0", "7.4"]

/-! ## Docker provider -/

/-- `DockerProvider.GetServiceName`. -/
def DockerProvider.GetServiceName (version : String) : String :=
  "php-" ++ version ++ "-fpm"

/-- `DockerProvider.GetSocketPath`. -/
def DockerProvider.GetSocketPath (username version : String) : String :=
  "/var/run/docker/php-" ++ version ++ "-" ++ username ++ ".sock"

/-- `DockerProvider.GetConfigPath`. -/
def DockerProvider.GetConfigPath (username version : String) : String :=
  fpJoin ["/etc/docker/php", version, username ++ ".conf"]

/-- `DockerProvider.InstallPHP`: unconditionally a not-implemented error. -/
def DockerProvider.InstallPHP (_version : String) : Except String Unit :=
  .error "Docker PHP provider not yet implemented"

/-- `DockerProvider.ListInstalledPHP`: returns `([]string{}, nil)`, i.e. an
empty list with a nil error. -/
def DockerProvider.ListInstalledPHP : Except String (List String) :=
  .ok []

/-- `DockerProvider.ListAvailablePHP`: hardcoded list, nil error. -/
def DockerProvider.ListAvailablePHP : Except String (List String) :=
  .ok ["8.3", "8.2", "8.1", "8.0", "7.4"]

/-! ## Provider dispatch (provider/factory.go resolves the instance; the
manager then calls the instance's path methods) -/

/-- Socket path of the provider resolved for `pt`. -/
def providerSocketPath (pt : ProviderType) (fam : OSFamily) (username version : String) : String :=
  match pt with
  | .remi => RemiProvider.GetSocketPath fam username version
  | .lsphp => LiteSpeedProvider.GetSocketPath username version
  | .altphp => AltPHPProvider.GetSocketPath username version
  | .docker => DockerProvider.GetSocketPath username version

/-- Config path of the provider resolved for `pt`. -/
def providerConfigPath (pt : ProviderType) (fam : OSFamily) (username version : String) : String :=
  match pt with
  | .remi => RemiProvider.GetConfigPath fam username version
  | .lsphp => LiteSpeedProvider.GetConfigPath username version
  | .altphp => AltPHPProvider.GetConfigPath username version
  | .docker => DockerProvider.GetConfigPath username version

/-- Service name of the provider resolved for `pt`. -/
def providerServiceName (pt : ProviderType) (fam : OSFamily) (version : String) : String :=
  match pt with
  | .remi => RemiProvider.GetServiceName fam version
  | .lsphp => LiteSpeedProvider.GetServiceName version
  | .altphp => AltPHPProvider.GetServiceName version
  | .docker => DockerProvider.GetServiceName version

/-! ## templates/template.go -/

/-- `templates.PoolConfigData`: the settings record the renderer consumes.
Go `int` fields are modelled as `Int`. -/
structure PoolConfigData where
  PoolName : String
  Username : String
  Group : String
  SocketPath : String
  ListenMode : String
  ProcessManager : String
  MaxChildren : Int
  StartServers : Int
  MinSpareServers : Int
  MaxSpareServers : Int
  MaxRequests : Int
  ProcessIdleTimeout : String
  SendmailPath : String
  DisplayErrors : String
  ErrorLog : String
  LogErrors : String
  MemoryLimit : String
  MaxExecutionTime : String
  UploadMaxFilesize : String
  PostMaxSize : String
  DateTimezone : String
deriving DecidableEq, Repr

/-- `templates.DefaultPoolConfigData`: the global defaults. -/
def DefaultPoolConfigData (username group socketPath : String) : PoolConfigData where
  PoolName := username
  Username := username
  Group := group
  SocketPath := socketPath
  ListenMode := "0660"
  ProcessManager := "dynamic"
  MaxChildren := 50
  StartServers := 5
  MinSpareServers := 5
  MaxSpareServers := 35
  MaxRequests := 500
  ProcessIdleTimeout := ""
  SendmailPath := "/usr/sbin/sendmail -t -i -f www@my.domain.com"
  DisplayErrors := "off"
  ErrorLog := "/var/log/fpm-php." ++ username ++ ".log"
  LogErrors := "on"
  MemoryLimit := "128M"
  MaxExecutionTime := ""
  UploadMaxFilesize := ""
  PostMaxSize := ""
  DateTimezone := ""

/-- A template field value: the struct fields are strings or ints. -/
inductive FieldVal where
  | str (s : String)
  | int (n : Int)
deriving DecidableEq, Repr

/-- How `text/template` prints a field value. -/
def FieldVal.render : FieldVal → String
  | .str s => s
  | .int n => toString n

/-- Go template truthiness for `if`: the zero value (empty string, zero int)
is false. -/
def FieldVal.truthy : FieldVal → Bool
  | .str s => !s.data.isEmpty
  | .int n => n != 0

/-- Field lookup on `PoolConfigData`, as reflection resolves `.Name` actions. -/
def fieldVal (d : PoolConfigData) : String → Option FieldVal
  | "PoolName" => some (.str d.PoolName)
  | "Username" => some (.str d.Username)
  | "Group" => some (.str d.Group)
  | "SocketPath" => some (.str d.SocketPath)
  | "ListenMode" => some (.str d.ListenMode)
  | "ProcessManager" => some (.str d.ProcessManager)
  | "MaxChildren" => some (.int d.MaxChildren)
  | "StartServers" => some (.int d.StartServers)
  | "MinSpareServers" => some (.int d.MinSpareServers)
  | "MaxSpareServers" => some (.int d.MaxSpareServers)
  | "MaxRequests" => some (.int d.MaxRequests)
  | "ProcessIdleTimeout" => some (.str d.ProcessIdleTimeout)
  | "SendmailPath" => some (.str d.SendmailPath)
  | "DisplayErrors" => some (.str d.DisplayErrors)
  | "ErrorLog" => some (.str d.ErrorLog)
  | "LogErrors" => some (.str d.LogErrors)
  | "MemoryLimit" => some (.str d.MemoryLimit)
  | "MaxExecutionTime" => some (.str d.MaxExecutionTime)
  | "UploadMaxFilesize" => some (.str d.UploadMaxFilesize)
  | "PostMaxSize" => some (.str d.PostMaxSize)
  | "DateTimezone" => some (.str d.DateTimezone)
  | _ => none

/-- Lexical tokens of the `text/template` subset the pool template uses:
literal text, `.Name` substitution, `if .Name` blocks and `end`. -/
inductive TplTok where
  | text (s : String)
  | field (name : String)
  | ifStart (name : String)
  | endTok
deriving DecidableEq, Repr

/-- Parse the interior of one action. -/
def parseAction (s : String) : Except String TplTok :=
  let t := strTrim s
  if t = "end" then .ok .endTok
  else if strStartsWith t "if ." then .ok (.ifStart (strDrop t 4))
  else if strStartsWith t "." then .ok (.field (strDrop t 1))
  else .error ("unexpected action: " ++ t)

/-- Tokenize the text following one action opener: everything up to the
closing delimiter is the action, the remainder is literal text. -/
def tokenizeChunk (chunk : String) : Except String (List TplTok) :=
  match strSplitOn chunk "\x7d\x7d" with
  | [act, txt] => do
    let tok ← parseAction act
    .ok (if txt = "" then [tok] else [tok, .text txt])
  | _ => .error "bad action delimiters"

/-- Tokenize a whole template by splitting at action openers. -/
def tokenize (tmpl : String) : Except String (List TplTok) :=
  match strSplitOn tmpl "\x7b\x7b" with
  | [] => .ok []
  | pre :: chunks => do
    let rest ← chunks.foldlM (fun acc c => do
      let ts ← tokenizeChunk c
      pure (acc ++ ts)) []
    .ok ((if pre = "" then [] else [TplTok.text pre]) ++ rest)

/-- Parsed template nodes: `if` blocks carry their body. -/
inductive TplNode where
  | text (s : String)
  | field (name : String)
  | cond (name : String) (body : List TplNode)
deriving Repr

/-- Parse a token sequence into nodes, stopping at an `end` token (left for
the caller); fuelled by the token count. -/
def parseSeq : Nat → List TplTok → Except String (List TplNode × List TplTok)
  | _, [] => .ok ([], [])
  | 0, _ :: _ => .error "template too complex"
  | fuel + 1, tok :: rest =>
    match tok with
    | .endTok => .ok ([], TplTok.endTok :: rest)
    | .text s => do
      let (ns, r) ← parseSeq fuel rest
      .ok (TplNode.text s :: ns, r)
    | .field n => do
      let (ns, r) ← parseSeq fuel rest
      .ok (TplNode.field n :: ns, r)
    | .ifStart n => do
      let (body, r) ← parseSeq fuel rest
      match r with
      | .endTok :: r2 => do
        let (ns, r3) ← parseSeq fuel r2
        .ok (TplNode.cond n body :: ns, r3)
      | _ => .error "missing end"

/-- `template.Parse`: tokenize and build the node tree. -/
def parseTemplate (tmpl : String) : Except String (List TplNode) := do
  let toks ← tokenize tmpl
  let (nodes, rest) ← parseSeq toks.length toks
  match rest with
  | [] => .ok nodes
  | _ => .error "unexpected end action"

/-- `template.Execute`: substitute fields, render truthy `if` bodies. The
fuel (always instantiated above the total node count, so it never runs out
on a parsed template) keeps the recursion structural. -/
def execNodes (d : PoolConfigData) : Nat → List TplNode → Except String String
  | _, [] => .ok ""
  | 0, _ :: _ => .error "template too deeply nested"
  | fuel + 1, node :: ns =>
    match node with
    | .text s => do
      let r ← execNodes d fuel ns
      .ok (s ++ r)
    | .field n =>
      match fieldVal d n with
      | none => .error ("undefined field ." ++ n)
      | some v => do
        let r ← execNodes d fuel ns
        .ok (v.render ++ r)
    | .cond n body =>
      match fieldVal d n with
      | none => .error ("undefined field ." ++ n)
      | some v =>
        if v.truthy then do
          let b ← execNodes d fuel body
          let r ← execNodes d fuel ns
          .ok (b ++ r)
        else execNodes d fuel ns

/-- `templates.RenderPoolConfig` (src/templates, part after README): parse
the template text, then execute it against the settings record. The
character count bounds the node count, so it is sufficient fuel. -/
def RenderPoolConfig (templateContent : String) (data : PoolConfigData) : Except String String := do
  let nodes ← parseTemplate templateContent
  execNodes data templateContent.data.length nodes

/-- Modelled from the spec: the embedded template file
`templates/pool.conf.tmpl` is compiled into the binary and is not present
under src/ (src/templates holds only README.md and template.go).
Reconstructed from src/templates/README.md: the variable list with its
defaults and optional fields, the documented `.Var` / `if .Var` syntax, and
the ini layout shown there and in the earlier inline generator
(manager/pool.go, generatePoolConfig of the pre-template revision). -/
def defaultPoolTemplate : String :=
  "[\x7b\x7b.PoolName\x7d\x7d]\n" ++
  "user = \x7b\x7b.Username\x7d\x7d\n" ++
  "group = \x7b\x7b.Group\x7d\x7d\n" ++
  "listen = \x7b\x7b.SocketPath\x7d\x7d\n" ++
  "listen.owner = \x7b\x7b.Username\x7d\x7d\n" ++
  "listen.group = \x7b\x7b.Group\x7d\x7d\n" ++
  "listen.mode = \x7b\x7b.ListenMode\x7d\x7d\n" ++
  "\n" ++
  "pm = \x7b\x7b.ProcessManager\x7d\x7d\n" ++
  "pm.max_children = \x7b\x7b.MaxChildren\x7d\x7d\n" ++
  "pm.start_servers = \x7b\x7b.StartServers\x7d\x7d\n" ++
  "pm.min_spare_servers = \x7b\x7b.MinSpareServers\x7d\x7d\n" ++
  "pm.max_spare_servers = \x7b\x7b.MaxSpareServers\x7d\x7d\n" ++
  "pm.max_requests = \x7b\x7b.MaxRequests\x7d\x7d\n" ++
  "\x7b\x7bif .ProcessIdleTimeout\x7d\x7dpm.process_idle_timeout = \x7b\x7b.ProcessIdleTimeout\x7d\x7d\n\x7b\x7bend\x7d\x7d" ++
  "\n" ++
  "\x7b\x7bif .SendmailPath\x7d\x7dphp_admin_value[sendmail_path] = \x7b\x7b.SendmailPath\x7d\x7d\n\x7b\x7bend\x7d\x7d" ++
  "php_flag[display_errors] = \x7b\x7b.DisplayErrors\x7d\x7d\n" ++
  "php_admin_value[error_log] = \x7b\x7b.ErrorLog\x7d\x7d\n" ++
  "php_admin_flag[log_errors] = \x7b\x7b.LogErrors\x7d\x7d\n" ++
  "php_admin_value[memory_limit] = \x7b\x7b.MemoryLimit\x7d\x7d\n" ++
  "\x7b\x7bif .MaxExecutionTime\x7d\x7dphp_admin_value[max_execution_time] = \x7b\x7b.MaxExecutionTime\x7d\x7d\n\x7b\x7bend\x7d\x7d" ++
  "\x7b\x7bif .UploadMaxFilesize\x7d\x7dphp_admin_value[upload_max_filesize] = \x7b\x7b.UploadMaxFilesize\x7d\x7d\n\x7b\x7bend\x7d\x7d" ++
  "\x7b\x7bif .PostMaxSize\x7d\x7dphp_admin_value[post_max_size] = \x7b\x7b.PostMaxSize\x7d\x7d\n\x7b\x7bend\x7d\x7d" ++
  "\x7b\x7bif .DateTimezone\x7d\x7dphp_admin_value[date.timezone] = \x7b\x7b.DateTimezone\x7d\x7d\n\x7b\x7bend\x7d\x7d"

/-- `templates.LoadTemplate`: the embedded template table holds exactly
`pool.conf.tmpl`. -/
def LoadTemplate (name : String) : Except String String :=
  if name = "pool.conf.tmpl" then .ok defaultPoolTemplate
  else .error ("template " ++ name ++ " not found")

/-! ## db/models.go and db/database.go -/

/-- `db.Pool` (db/models.go): a pools-table row. `created_at`/`updated_at`
timestamps are modelled as naturals. -/
structure PoolRow where
  username : String
  phpVersion : String
  provider : String
  socketPath : String
  configPath : String
  status : String
  createdAt : Nat
  updatedAt : Nat
deriving DecidableEq, Repr

/-- `db.PHPVersion` (db/models.go): a php_versions-table row. -/
structure PHPVersionRow where
  version : String
  packageManager : String
  osFamily : String
  status : String
deriving DecidableEq, Repr

/-- Columns of the pools table per `initSchema` (db/database.go lines 56-67). -/
def poolsTableColumns : List String :=
  ["id", "username", "php_version", "socket_path", "config_path", "status",
   "created_at", "updated_at"]

/-- The unique key `initSchema` declares on pools: UNIQUE(username, php_version). -/
def poolsUniqueKey : List String := ["username", "php_version"]

/-- Columns named by the INSERT statement of `db.CreatePool`
(db/models.go lines 91-102). -/
def createPoolInsertColumns : List String :=
  ["username", "php_version", "provider", "socket_path", "config_path", "status"]

/-- The conflict target of that INSERT's ON CONFLICT clause. -/
def createPoolConflictTarget : List String := ["username", "php_version", "provider"]

/-- Columns named by the SELECT of `db.GetPool` (db/models.go lines 104-128). -/
def getPoolSelectColumns : List String :=
  ["id", "username", "php_version", "provider", "socket_path", "config_path",
   "status", "created_at", "updated_at"]

/-- The row predicate of the ON CONFLICT(username, php_version, provider)
target in `db.CreatePool`. -/
def poolKeyMatch (username phpVersion provider : String) (r : PoolRow) : Bool :=
  r.username == username && r.phpVersion == phpVersion && r.provider == provider

/-- `db.CreatePool` (db/models.go lines 91-102): the statement is
`INSERT INTO pools (..., provider, ...) ... ON CONFLICT(username,
php_version, provider) DO UPDATE SET socket_path = excluded.socket_path,
config_path = excluded.config_path, updated_at = CURRENT_TIMESTAMP`.
SQLite prepares the statement against the table `initSchema`
(db/database.go lines 56-67) creates; that preparation fails — the INSERT
names a `provider` column the table lacks, and the conflict target matches
no unique index (the schema's only unique key is (username, php_version)) —
so against the shipped schema every call returns the prepare error and
never touches the table. The guarded branch carries the upsert semantics
the statement's own text describes, reachable only if the statement matched
the schema. `failInsert` injects an additional registry failure (the fault
the C1 scenario forces) and `now` stands for CURRENT_TIMESTAMP. -/
def Db.CreatePool (failInsert : Bool) (now : Nat) (pools : List PoolRow)
    (username phpVersion provider socketPath configPath : String) :
    Except String (List PoolRow) :=
  if failInsert then .error "database error"
  else if createPoolInsertColumns.all poolsTableColumns.contains &&
      (createPoolConflictTarget == poolsUniqueKey) then
    if pools.any (poolKeyMatch username phpVersion provider) then
      .ok (pools.map (fun r =>
        if poolKeyMatch username phpVersion provider r then
          { r with socketPath := socketPath, configPath := configPath, updatedAt := now }
        else r))
    else
      .ok (pools ++ [({ username := username, phpVersion := phpVersion,
                        provider := provider, socketPath := socketPath,
                        configPath := configPath, status := "active",
                        createdAt := now, updatedAt := now } : PoolRow)])
  else .error "table pools has no column named provider"

/-- `ORDER BY created_at DESC LIMIT 1` over a candidate list: the row with
the greatest created_at, earlier rows winning ties. -/
def newestPool : List PoolRow → Option PoolRow
  | [] => none
  | r :: rs =>
    match newestPool rs with
    | none => some r
    | some b => if b.createdAt > r.createdAt then some b else some r

/-- `db.GetPool` (db/models.go lines 104-128): `SELECT id, username,
php_version, provider, ... FROM pools WHERE username = ? ORDER BY created_at
DESC LIMIT 1`, returning `(nil, nil)` on no rows. The SELECT names a
`provider` column that `initSchema`'s pools table does not have, so against
the shipped schema every call returns the prepare error ("no such column")
and never yields a row; the guarded branch carries the query's own
semantics (newest row for the username), reachable only if the query
matched the schema. -/
def Db.GetPool (pools : List PoolRow) (username : String) :
    Except String (Option PoolRow) :=
  if getPoolSelectColumns.all poolsTableColumns.contains then
    .ok (newestPool (pools.filter (fun r => r.username == username)))
  else .error "no such column: provider"

/-- `db.DeletePool` (db/models.go lines 185-201):
`DELETE FROM pools WHERE username = ?`, then `sql.ErrNoRows` when the delete
affected zero rows. -/
def Db.DeletePool (pools : List PoolRow) (username : String) :
    Except String (List PoolRow) :=
  let affected := (pools.filter (fun r => r.username == username)).length
  if affected == 0 then .error "sql: no rows in result set"
  else .ok (pools.filter (fun r => !(r.username == username)))

/-- `db.GetPHPVersion` (db/models.go): lookup by the unique version string;
`nil, nil` on no rows becomes `none`. -/
def Db.GetPHPVersion (versions : List PHPVersionRow) (version : String) :
    Option PHPVersionRow :=
  versions.find? (fun r => r.version == version)

/-- `db.CreatePHPVersion` (db/models.go): plain INSERT with
`version TEXT NOT NULL UNIQUE`, so a duplicate version is a constraint
error. -/
def Db.CreatePHPVersion (versions : List PHPVersionRow)
    (version packageManager osFamily : String) :
    Except String (List PHPVersionRow) :=
  if versions.any (fun r => r.version == version) then
    .error "UNIQUE constraint failed: php_versions.version"
  else
    .ok (versions ++ [({ version := version, packageManager := packageManager,
                         osFamily := osFamily, status := "active" } : PHPVersionRow)])

/-! ## manager/pool.go: the pool lifecycle manager over an explicit world -/

/-- An OS account as `os/user.Lookup` reports it. -/
structure GoUser where
  name : String
  uid : String
  gid : String
deriving DecidableEq, Repr

/-- The state the pool manager reads and mutates: OS accounts and groups,
the filesystem (file contents and created directories), the registry tables,
the supervisor-reload log, fault injection for the registry insert and for
reloads, and the registry clock. -/
structure World where
  osFamily : OSFamily
  users : List GoUser
  groups : List (String × String)
  files : List (String × String)
  dirs : List String
  pools : List PoolRow
  phpVersions : List PHPVersionRow
  reloads : List String
  failReload : List String
  failPoolInsert : Bool
  clock : Nat
deriving DecidableEq, Repr

/-- `os/user.Lookup`. -/
def lookupUser (w : World) (name : String) : Option GoUser :=
  w.users.find? (fun u => u.name == name)

/-- `os/user.LookupId`. -/
def lookupUserById (w : World) (uid : String) : Option GoUser :=
  w.users.find? (fun u => u.uid == uid)

/-- The file at a path, when present. -/
def fileContent (w : World) (p : String) : Option String :=
  w.files.lookup p

/-- `os.Stat` used as an existence probe. -/
def statFile (w : World) (p : String) : Bool :=
  (fileContent w p).isSome

/-- `os.WriteFile`: create or replace. -/
def writeFile (w : World) (p c : String) : World :=
  { w with files := (p, c) :: w.files.filter (fun kv => !(kv.1 == p)) }

/-- `os.Remove` on a file. -/
def removeFile (w : World) (p : String) : World :=
  { w with files := w.files.filter (fun kv => !(kv.1 == p)) }

/-- `os.MkdirAll`, modelled as always succeeding. -/
def mkdirAll (w : World) (d : String) : World :=
  { w with dirs := if d ∈ w.dirs then w.dirs else d :: w.dirs }

/-- `PoolManager.reloadFPMService` (manager/pool.go): `systemctl reload`,
falling back to `reload-or-restart`; the invocation is recorded and fails
exactly for the services listed in `failReload`. -/
def reloadFPMService (w : World) (serviceName : String) :
    Except String Unit × World :=
  (if w.failReload.contains serviceName then
     .error ("failed to reload " ++ serviceName)
   else .ok (),
   { w with reloads := w.reloads ++ [serviceName] })

/-- The group-name resolution both `generatePoolConfig` and
`UpdatePoolConfig` perform: the user's primary group name via
`user.LookupGroupId`, falling back to the username. -/
def resolveGroupName (w : World) (username gid : String) : String :=
  if gid == "" then username
  else
    match w.groups.lookup gid with
    | some g => g
    | none => username

/-- `PoolManager.generatePoolConfig` (manager/pool.go lines 235-266):
look the user up by uid, resolve the group name, load the embedded template
and render it over the global defaults. -/
def PoolManager.generatePoolConfig (w : World)
    (username uid _gid socketPath _phpVersion : String) : Except String String :=
  match lookupUserById w uid with
  | none => .error "failed to lookup user"
  | some u => do
    let groupName := resolveGroupName w username u.gid
    let templateContent ← LoadTemplate "pool.conf.tmpl"
    RenderPoolConfig templateContent (DefaultPoolConfigData username groupName socketPath)

/-- The step of `CreatePool` that auto-registers the referenced PHP version
when absent (manager/pool.go lines 131-149). -/
def ensurePHPVersion (w : World) (phpVersion providerType : String) :
    Except String World :=
  match Db.GetPHPVersion w.phpVersions phpVersion with
  | some _ => .ok w
  | none =>
    match Db.CreatePHPVersion w.phpVersions phpVersion providerType
        (osFamilyStr w.osFamily) with
    | .error e => .error ("failed to register PHP version: " ++ e)
    | .ok vs => .ok { w with phpVersions := vs }

/-- `PoolManager.CreatePool` (manager/pool.go lines 61-165): validate user
and provider, compute paths, create the pool directory, refuse an existing
config file, render and write the configuration, create the socket
directory, ensure the PHP version row, insert the pool row (removing the
just-written file if that fails), then reload the provider's service. -/
def PoolManager.CreatePool (w : World) (username phpVersion providerType : String) :
    Except String Unit × World :=
  match lookupUser w username with
  | none => (.error ("user " ++ username ++ " does not exist"), w)
  | some u =>
    match parseProviderType providerType with
    | none => (.error ("invalid provider type: " ++ providerType ++
        ". Supported: remi, lsphp, alt-php, docker"), w)
    | some pt =>
      let socketPath := providerSocketPath pt w.osFamily username phpVersion
      let configPath := providerConfigPath pt w.osFamily username phpVersion
      let w1 := mkdirAll w (fpDir configPath)
      if statFile w1 configPath then
        (.error ("pool for user " ++ username ++ " with PHP " ++ phpVersion ++
          " and provider " ++ providerType ++ " already exists"), w1)
      else
        match PoolManager.generatePoolConfig w1 username u.uid u.gid socketPath phpVersion with
        | .error e => (.error ("failed to generate pool config: " ++ e), w1)
        | .ok config =>
          let w2 := mkdirAll (writeFile w1 configPath config) (fpDir socketPath)
          match ensurePHPVersion w2 phpVersion providerType with
          | .error e => (.error e, w2)
          | .ok w3 =>
            match Db.CreatePool w3.failPoolInsert w3.clock w3.pools username
                phpVersion providerType socketPath configPath with
            | .error e =>
              (.error ("failed to save pool to database: " ++ e),
               removeFile w3 configPath)
            | .ok pools =>
              let w4 := { w3 with pools := pools }
              let (res, w5) := reloadFPMService w4
                (providerServiceName pt w.osFamily phpVersion)
              match res with
              | .error e => (.error ("failed to reload PHP-FPM: " ++ e), w5)
              | .ok _ => (.ok (), w5)

/-- The provider-string dispatch `DeletePool`/`UpdatePoolConfig` perform,
defaulting to remi for unknown strings (manager/pool.go lines 185-198). -/
def providerTypeOrRemi (s : String) : ProviderType :=
  match parseProviderType s with
  | some pt => pt
  | none => .remi

/-- `PoolManager.DeletePool` (manager/pool.go lines 167-212): look the pool
up in the registry, remove the config file only when present, best-effort
reload of the provider's service (result discarded), then delete the
registry row(s). -/
def PoolManager.DeletePool (w : World) (username : String) :
    Except String Unit × World :=
  match Db.GetPool w.pools username with
  | .error e => (.error ("failed to get pool from database: " ++ e), w)
  | .ok none => (.error ("pool for user " ++ username ++ " not found"), w)
  | .ok (some dbPool) =>
    let w1 := if statFile w dbPool.configPath then removeFile w dbPool.configPath else w
    let pt := providerTypeOrRemi dbPool.provider
    let (_, w2) := reloadFPMService w1
      (providerServiceName pt w.osFamily dbPool.phpVersion)
    match Db.DeletePool w2.pools username with
    | .error e => (.error ("failed to delete pool from database: " ++ e), w2)
    | .ok pools => (.ok (), { w2 with pools := pools })

/-- A value of the JSON settings map `map[string]interface{}`: the type
switches in `applyPoolSettings` handle float64 (integral, modelled as
`Int`), string and bool. -/
inductive SettingVal where
  | num (n : Int)
  | str (s : String)
  | boolean (b : Bool)
deriving DecidableEq, Repr

/-- One case of the `switch key` in `applyPoolSettings`
(src/unnamed/part_010 lines 316-402): a recognised key with a value of the
expected dynamic type updates its field; everything else is ignored. -/
def applyPoolSetting (d : PoolConfigData) (key : String) (value : SettingVal) :
    PoolConfigData :=
  if key = "max_children" then
    match value with | .num n => { d with MaxChildren := n } | _ => d
  else if key = "start_servers" then
    match value with | .num n => { d with StartServers := n } | _ => d
  else if key = "min_spare_servers" then
    match value with | .num n => { d with MinSpareServers := n } | _ => d
  else if key = "max_spare_servers" then
    match value with | .num n => { d with MaxSpareServers := n } | _ => d
  else if key = "max_requests" then
    match value with | .num n => { d with MaxRequests := n } | _ => d
  else if key = "process_manager" then
    match value with | .str s => { d with ProcessManager := s } | _ => d
  else if key = "memory_limit" then
    match value with | .str s => { d with MemoryLimit := s } | _ => d
  else if key = "max_execution_time" then
    match value with
    | .str s => { d with MaxExecutionTime := s }
    | .num n => { d with MaxExecutionTime := toString n }
    | _ => d
  else if key = "upload_max_filesize" then
    match value with | .str s => { d with UploadMaxFilesize := s } | _ => d
  else if key = "post_max_size" then
    match value with | .str s => { d with PostMaxSize := s } | _ => d
  else if key = "display_errors" then
    match value with
    | .str s => { d with DisplayErrors := s }
    | .boolean b => { d with DisplayErrors := if b then "on" else "off" }
    | _ => d
  else if key = "log_errors" then
    match value with
    | .str s => { d with LogErrors := s }
    | .boolean b => { d with LogErrors := if b then "on" else "off" }
    | _ => d
  else if key = "date_timezone" then
    match value with | .str s => { d with DateTimezone := s } | _ => d
  else if key = "sendmail_path" then
    match value with | .str s => { d with SendmailPath := s } | _ => d
  else if key = "process_idle_timeout" then
    match value with
    | .str s => { d with ProcessIdleTimeout := s }
    | .num n => { d with ProcessIdleTimeout := toString n }
    | _ => d
  else if key = "listen_mode" then
    match value with | .str s => { d with ListenMode := s } | _ => d
  else d

/-- `applyPoolSettings`: fold the overrides over the settings record (the Go
range over the map, in list order; the recognised keys are distinct so the
order is immaterial). The Go function's error result is always nil. -/
def applyPoolSettings (d : PoolConfigData)
    (settings : List (String × SettingVal)) : PoolConfigData :=
  settings.foldl (fun acc kv => applyPoolSetting acc kv.1 kv.2) d

/-- `PoolManager.UpdatePoolConfig` (src/unnamed/part_010 lines 240-314):
look the pool up, seed a settings record from `DefaultPoolConfigData` (the
global defaults — not the pool's current file), apply the overrides, render,
overwrite the config file, reload. -/
def PoolManager.UpdatePoolConfig (w : World) (username : String)
    (settings : List (String × SettingVal)) : Except String Unit × World :=
  match Db.GetPool w.pools username with
  | .error e => (.error ("failed to get pool from database: " ++ e), w)
  | .ok none => (.error ("pool for user " ++ username ++ " not found"), w)
  | .ok (some dbPool) =>
    match lookupUser w username with
    | none => (.error "failed to lookup user", w)
    | some u =>
      let groupName := resolveGroupName w username u.gid
      match LoadTemplate "pool.conf.tmpl" with
      | .error e => (.error ("failed to load template: " ++ e), w)
      | .ok templateContent =>
        let data := applyPoolSettings
          (DefaultPoolConfigData username groupName dbPool.socketPath) settings
        match RenderPoolConfig templateContent data with
        | .error e => (.error ("failed to render template: " ++ e), w)
        | .ok config =>
          let w1 := writeFile w dbPool.configPath config
          let pt := providerTypeOrRemi dbPool.provider
          let (res, w2) := reloadFPMService w1
            (providerServiceName pt w.osFamily dbPool.phpVersion)
          match res with
          | .error e => (.error ("failed to reload PHP-FPM: " ++ e), w2)
          | .ok _ => (.ok (), w2)

/-- A call to `templates.RenderPoolConfig` made from any world state: the Go
function body reads no state outside its two arguments and writes none
(bytes.Buffer is local), so its embedding ignores the world. -/
def renderPoolConfigIn (_w : World) (templateContent : String)
    (data : PoolConfigData) : Except String String :=
  RenderPoolConfig templateContent data

/-! ## Shared helper lemmas -/

/-- The INSERT of `db.CreatePool` names a `provider` column that `initSchema`
never creates, and its conflict target differs from the schema's unique key:
the registry statement and the shipped schema disagree. -/
lemma createPool_schema_mismatch :
    "provider" ∈ createPoolInsertColumns ∧ "provider" ∉ poolsTableColumns ∧
    createPoolConflictTarget ≠ poolsUniqueKey := by decide

lemma lookup_filter_ne (l : List (String × String)) (p : String) :
    (l.filter fun kv => !(kv.1 == p)).lookup p = none := by
  induction l with
  | nil => rfl
  | cons kv l ih =>
    by_cases h : kv.1 = p
    · simpa [List.filter_cons, h] using ih
    · have hb : (p == kv.1) = false := beq_eq_false_iff_ne.mpr (Ne.symm h)
      simp [List.filter_cons, h, List.lookup, hb, ih]

@[simp] lemma mkdirAll_files (w : World) (d : String) : (mkdirAll w d).files = w.files := rfl

@[simp] lemma mkdirAll_pools (w : World) (d : String) : (mkdirAll w d).pools = w.pools := rfl

@[simp] lemma mkdirAll_reloads (w : World) (d : String) : (mkdirAll w d).reloads = w.reloads := rfl

@[simp] lemma mkdirAll_failPoolInsert (w : World) (d : String) :
    (mkdirAll w d).failPoolInsert = w.failPoolInsert := rfl

@[simp] lemma writeFile_pools (w : World) (p c : String) : (writeFile w p c).pools = w.pools := rfl

@[simp] lemma writeFile_failPoolInsert (w : World) (p c : String) :
    (writeFile w p c).failPoolInsert = w.failPoolInsert := rfl

@[simp] lemma removeFile_pools (w : World) (p : String) : (removeFile w p).pools = w.pools := rfl

@[simp] lemma fileContent_mkdirAll (w : World) (d p : String) :
    fileContent (mkdirAll w d) p = fileContent w p := rfl

@[simp] lemma fileContent_writeFile_self (w : World) (p c : String) :
    fileContent (writeFile w p c) p = some c := by
  simp [fileContent, writeFile, List.lookup]

@[simp] lemma fileContent_removeFile_self (w : World) (p : String) :
    fileContent (removeFile w p) p = none := by
  simp [fileContent, removeFile, lookup_filter_ne]

@[simp] lemma statFile_mkdirAll (w : World) (d p : String) :
    statFile (mkdirAll w d) p = statFile w p := rfl

@[simp] lemma writeFile_dirs (w : World) (p c : String) : (writeFile w p c).dirs = w.dirs := rfl

@[simp] lemma removeFile_dirs (w : World) (p : String) : (removeFile w p).dirs = w.dirs := rfl

lemma mem_mkdirAll_self (w : World) (d : String) : d ∈ (mkdirAll w d).dirs := by
  by_cases h : d ∈ w.dirs
  · simp [mkdirAll, h]
  · simp [mkdirAll, h]

lemma mem_mkdirAll_of_mem (w : World) (d x : String) (hx : x ∈ w.dirs) :
    x ∈ (mkdirAll w d).dirs := by
  by_cases h : d ∈ w.dirs
  · simpa [mkdirAll, h]
  · simp [mkdirAll, h, hx]

/-- Against the shipped schema, `db.GetPool` always fails at prepare: its
SELECT names the `provider` column `initSchema` never creates. -/
lemma dbGetPool_always_errors (pools : List PoolRow) (username : String) :
    Db.GetPool pools username = .error "no such column: provider" := by
  unfold Db.GetPool
  rw [if_neg (by decide)]

/-- Against the shipped schema, `db.CreatePool` (without an injected fault)
always fails at prepare: its INSERT names the `provider` column `initSchema`
never creates, and its conflict target matches no unique index. -/
lemma dbCreatePool_always_errors (now : Nat) (pools : List PoolRow)
    (username phpVersion provider socketPath configPath : String) :
    Db.CreatePool false now pools username phpVersion provider socketPath configPath =
      .error "table pools has no column named provider" := by
  unfold Db.CreatePool
  rw [if_neg (by decide), if_neg (by decide)]

/-- Middle-segment injectivity of string concatenation, used for the path
non-collision claim. -/
lemma append_mid_inj {pre suf u₁ u₂ : String}
    (h : pre ++ u₁ ++ suf = pre ++ u₂ ++ suf) : u₁ = u₂ := by
  have hd := congrArg String.data h
  simp only [String.data_append, List.append_assoc, List.append_right_inj,
    List.append_left_inj] at hd
  exact String.ext hd

/-! ## C6 -/

/-- C6 counterexample: `DockerProvider.ListInstalledPHP` returns an empty
list together with a nil error, so an unsupported provider's enumeration is
not a tagged NotImplementedError — the claim is false as stated. -/
theorem c6_counterexample :
    DockerProvider.ListInstalledPHP = Except.ok ([] : List String) := rfl

/-- C6 amended: only the install operation of the Docker and Alt-PHP
providers reports not-implemented; their enumeration operations silently
succeed — installed lists as empty with nil error, available lists as a
hardcoded non-empty catalog with nil error — so callers cannot distinguish
"no items" from "unsupported" there. -/
theorem c6_amended_lists_succeed (version : String) :
    DockerProvider.InstallPHP version = .error "Docker PHP provider not yet implemented" ∧
    AltPHPProvider.InstallPHP version = .error "Alt-PHP provider not yet implemented" ∧
    DockerProvider.ListInstalledPHP = .ok [] ∧
    AltPHPProvider.ListInstalledPHP = .ok [] ∧
    DockerProvider.ListAvailablePHP = .ok ["8.3", "8.2", "8.1", "8.0", "7.4"] ∧
    AltPHPProvider.ListAvailablePHP = .ok ["8.3", "8.2", "8.1", "8.0", "7.4"] :=
  ⟨rfl, rfl, rfl, rfl, rfl, rfl⟩

/-! ## C7 -/

/-- C7: the configuration renderer is deterministic and side-effect-free:
a call to `RenderPoolConfig` reads nothing outside its template and settings
arguments, so two invocations from arbitrary world states produce identical
(byte-identical) results and leave both worlds untouched. -/
theorem c7_render_deterministic (w₁ w₂ : World) (templateContent : String)
    (data : PoolConfigData) :
    renderPoolConfigIn w₁ templateContent data = renderPoolConfigIn w₂ templateContent data := rfl

/-! ## C8 -/

/-- C8: for every provider, OS family and fixed version, the socket-path and
config-path derivations are injective in the username: distinct usernames
never collide. -/
theorem c8_path_injective (fam : OSFamily) (v u₁ u₂ : String) :
    (RemiProvider.GetSocketPath fam u₁ v = RemiProvider.GetSocketPath fam u₂ v → u₁ = u₂) ∧
    (RemiProvider.GetConfigPath fam u₁ v = RemiProvider.GetConfigPath fam u₂ v → u₁ = u₂) ∧
    (LiteSpeedProvider.GetSocketPath u₁ v = LiteSpeedProvider.GetSocketPath u₂ v → u₁ = u₂) ∧
    (LiteSpeedProvider.GetConfigPath u₁ v = LiteSpeedProvider.GetConfigPath u₂ v → u₁ = u₂) ∧
    (AltPHPProvider.GetSocketPath u₁ v = AltPHPProvider.GetSocketPath u₂ v → u₁ = u₂) ∧
    (AltPHPProvider.GetConfigPath u₁ v = AltPHPProvider.GetConfigPath u₂ v → u₁ = u₂) ∧
    (DockerProvider.GetSocketPath u₁ v = DockerProvider.GetSocketPath u₂ v → u₁ = u₂) ∧
    (DockerProvider.GetConfigPath u₁ v = DockerProvider.GetConfigPath u₂ v → u₁ = u₂) := by
  refine ⟨?_, ?_, ?_, ?_, ?_, ?_, ?_, ?_⟩ <;> intro h <;> cases fam
  all_goals
    simp only [RemiProvider.GetSocketPath, RemiProvider.GetConfigPath,
      LiteSpeedProvider.GetSocketPath, LiteSpeedProvider.GetConfigPath,
      AltPHPProvider.GetSocketPath, AltPHPProvider.GetConfigPath,
      DockerProvider.GetSocketPath, DockerProvider.GetConfigPath,
      fpJoin, reduceCtorEq, reduceIte] at h
  all_goals
    have hd := congrArg String.data h
    simp only [String.data_append, List.append_assoc, List.append_right_inj,
      List.append_left_inj] at hd
    exact String.ext hd

/-- Witness for C8 at concrete providers, version and usernames. -/
theorem c8_path_injective_witness :
    ("alice" : String) = "alice" ∧ ("bob" : String) = "bob" :=
  ⟨(c8_path_injective OSFamily.rhel "8.2" "alice" "alice").1 rfl,
   (c8_path_injective OSFamily.debian "8.2" "bob" "bob").2.2.2.1 rfl⟩

/-! ## C4 -/

/-- A pre-existing registry row used by the C4 scenario. -/
def c4Row : PoolRow :=
  { username := "alice", phpVersion := "8.2", provider := "remi",
    socketPath := "/var/run/php/php8.2-alice.sock",
    configPath := "/etc/php/8.2/fpm/pool.d/alice.conf",
    status := "active", createdAt := 0, updatedAt := 0 }

/-- C4 counterexample: a second `db.CreatePool` with the same
(username, php_version) key — same provider too — does not fail with a
unique-constraint violation. It fails with the prepare error for the
missing `provider` column, and identically so on an empty registry, so the
failure has nothing to do with a key conflict; nothing is overwritten
(no ok branch is ever taken, so the caller's rows are untouched). -/
theorem c4_counterexample :
    Db.CreatePool false 1 [c4Row] "alice" "8.2" "remi" "/srv/new.sock" "/srv/new.conf" =
      .error "table pools has no column named provider" ∧
    Db.CreatePool false 1 [] "alice" "8.2" "remi" "/srv/new.sock" "/srv/new.conf" =
      .error "table pools has no column named provider" := ⟨rfl, rfl⟩

/-- C4 amended: every `db.CreatePool` call — first insert and duplicate-key
insert alike — fails with the same prepare error, because the statement
names a `provider` column and an ON CONFLICT target that `initSchema` never
creates; no unique-constraint violation is ever raised and the registry is
never modified. (The statement's own ON CONFLICT DO UPDATE text is an
upsert, so even against a matching schema a duplicate key would be silently
overwritten, not rejected.) -/
theorem c4_amended_always_prepare_error (now : Nat) (pools : List PoolRow)
    (username phpVersion provider socketPath configPath : String) :
    Db.CreatePool false now pools username phpVersion provider socketPath configPath =
      .error "table pools has no column named provider" ∧
    "provider" ∈ createPoolInsertColumns ∧ "provider" ∉ poolsTableColumns ∧
    createPoolConflictTarget ≠ poolsUniqueKey :=
  ⟨dbCreatePool_always_errors now pools username phpVersion provider socketPath configPath,
   by decide, by decide, by decide⟩

/-! ## C10 -/

/-- Rows for the C10 registry: two rows for alice (created at 1 and 5) and
one for bob — the layout the claim reads off the schema's
UNIQUE(username, php_version) key. -/
def c10RowOld : PoolRow :=
  { username := "alice", phpVersion := "8.1", provider := "remi",
    socketPath := "/s1", configPath := "/c1", status := "active",
    createdAt := 1, updatedAt := 1 }

def c10RowNew : PoolRow :=
  { username := "alice", phpVersion := "8.2", provider := "remi",
    socketPath := "/s2", configPath := "/c2", status := "active",
    createdAt := 5, updatedAt := 5 }

def c10RowOther : PoolRow :=
  { username := "bob", phpVersion := "8.2", provider := "remi",
    socketPath := "/s3", configPath := "/c3", status := "active",
    createdAt := 3, updatedAt := 3 }

def c10Pools : List PoolRow := [c10RowOld, c10RowNew, c10RowOther]

/-- C10: evaluation at the failing input. `db.GetPool("alice")` on the
three-row registry does not return the most recent alice row (created at
5): it returns the prepare error for the `provider` column its SELECT names
but `initSchema` never creates. The claim's other half does hold of the
code: `db.DeletePool("alice")`, a plain DELETE, removes both alice rows in
one operation and keeps bob's. The claim is the evident meaning of the
code's own ORDER BY created_at DESC LIMIT 1 query; the query contradicts
the schema the same package creates, so the code, not the claim, is at
fault. -/
theorem c10_code_bug_eval :
    Db.GetPool c10Pools "alice" = .error "no such column: provider" ∧
    Db.DeletePool c10Pools "alice" = .ok [c10RowOther] := ⟨rfl, rfl⟩

/-! ## C2 -/

lemma applyPoolSetting_memoryLimit (d : PoolConfigData) (k : String) (v : SettingVal)
    (hk : k ≠ "memory_limit") :
    (applyPoolSetting d k v).MemoryLimit = d.MemoryLimit := by
  delta applyPoolSetting
  by_cases h1 : k = "max_children"
  · rw [if_pos h1]; cases v <;> rfl
  rw [if_neg h1]
  by_cases h2 : k = "start_servers"
  · rw [if_pos h2]; cases v <;> rfl
  rw [if_neg h2]
  by_cases h3 : k = "min_spare_servers"
  · rw [if_pos h3]; cases v <;> rfl
  rw [if_neg h3]
  by_cases h4 : k = "max_spare_servers"
  · rw [if_pos h4]; cases v <;> rfl
  rw [if_neg h4]
  by_cases h5 : k = "max_requests"
  · rw [if_pos h5]; cases v <;> rfl
  rw [if_neg h5]
  by_cases h6 : k = "process_manager"
  · rw [if_pos h6]; cases v <;> rfl
  rw [if_neg h6]
  by_cases h7 : k = "memory_limit"
  · exact absurd h7 hk
  rw [if_neg h7]
  by_cases h8 : k = "max_execution_time"
  · rw [if_pos h8]; cases v <;> rfl
  rw [if_neg h8]
  by_cases h9 : k = "upload_max_filesize"
  · rw [if_pos h9]; cases v <;> rfl
  rw [if_neg h9]
  by_cases h10 : k = "post_max_size"
  · rw [if_pos h10]; cases v <;> rfl
  rw [if_neg h10]
  by_cases h11 : k = "display_errors"
  · rw [if_pos h11]; cases v <;> rfl
  rw [if_neg h11]
  by_cases h12 : k = "log_errors"
  · rw [if_pos h12]; cases v <;> rfl
  rw [if_neg h12]
  by_cases h13 : k = "date_timezone"
  · rw [if_pos h13]; cases v <;> rfl
  rw [if_neg h13]
  by_cases h14 : k = "sendmail_path"
  · rw [if_pos h14]; cases v <;> rfl
  rw [if_neg h14]
  by_cases h15 : k = "process_idle_timeout"
  · rw [if_pos h15]; cases v <;> rfl
  rw [if_neg h15]
  by_cases h16 : k = "listen_mode"
  · rw [if_pos h16]; cases v <;> rfl
  rw [if_neg h16]

lemma applyPoolSettings_memoryLimit (d : PoolConfigData)
    (settings : List (String × SettingVal))
    (h : ∀ p ∈ settings, p.1 ≠ "memory_limit") :
    (applyPoolSettings d settings).MemoryLimit = d.MemoryLimit := by
  induction settings generalizing d with
  | nil => rfl
  | cons p ps ih =>
    have hstep : applyPoolSettings d (p :: ps) =
        applyPoolSettings (applyPoolSetting d p.1 p.2) ps := rfl
    rw [hstep, ih _ (fun q hq => h q (List.mem_cons_of_mem p hq))]
    exact applyPoolSetting_memoryLimit d p.1 p.2 (h p (List.mem_cons_self p ps))

/-- The socket path, config path and override map of the C2 scenario. -/
def c2Sock : String := "/var/run/php/php8.2-alice.sock"

def c2ConfigPath : String := "/etc/php/8.2/fpm/pool.d/alice.conf"

def c2Overrides : List (String × SettingVal) := [("max_children", SettingVal.num 80)]

/-- The settings the pool's current configuration was rendered from: custom
memory limit "256M", defaults elsewhere. -/
def c2PriorData : PoolConfigData :=
  { DefaultPoolConfigData "alice" "alice" c2Sock with MemoryLimit := "256M" }

/-- The pool's current on-disk configuration in the C2 scenario. -/
def c2PriorConfig : String :=
  (RenderPoolConfig defaultPoolTemplate c2PriorData).toOption.getD ""

/-- C2 world: alice's pool row exists and its config file holds
`c2PriorConfig` (memory limit "256M"). -/
def c2World : World where
  osFamily := .debian
  users := [{ name := "alice", uid := "1000", gid := "1000" }]
  groups := [("1000", "alice")]
  files := [(c2ConfigPath, c2PriorConfig)]
  dirs := []
  pools := [{ username := "alice", phpVersion := "8.2", provider := "remi",
              socketPath := c2Sock, configPath := c2ConfigPath,
              status := "active", createdAt := 1, updatedAt := 1 }]
  phpVersions := [{ version := "8.2", packageManager := "remi",
                    osFamily := "debian", status := "active" }]
  reloads := []
  failReload := []
  failPoolInsert := false
  clock := 2

set_option maxRecDepth 100000 in
/-- C2 counterexample: reconfiguring alice's pool (current memory limit
"256M") with only max_children = 80 does not produce a written
configuration at all, let alone one that keeps "256M": `UpdatePoolConfig`
fails at its first step, because `db.GetPool`'s SELECT names the `provider`
column `initSchema` never creates, and the world — including the prior
256M configuration file — is left exactly as it was. -/
theorem c2_counterexample :
    (PoolManager.UpdatePoolConfig c2World "alice" c2Overrides).1 =
      .error ("failed to get pool from database: " ++ "no such column: provider") ∧
    (PoolManager.UpdatePoolConfig c2World "alice" c2Overrides).2 = c2World ∧
    fileContent c2World c2ConfigPath = some c2PriorConfig ∧
    c2PriorData.MemoryLimit = "256M" := by
  refine ⟨?_, ?_, ?_, rfl⟩ <;> rfl

/-- C2 amended: `UpdatePoolConfig` never writes a configuration — it always
fails at its first step (`db.GetPool` errors: the SELECT names a `provider`
column absent from the shipped schema) and leaves the world unchanged, so
the claimed write never happens. Moreover the settings record its body
builds for the renderer is seeded from `DefaultPoolConfigData`'s global
defaults merged with the overrides, not from the pool's current persisted
configuration: any field absent from the overrides map carries the global
default (memory limit "128M", whatever was persisted before), while
overridden fields are applied (max_children = 80). -/
theorem c2_amended_resets_to_defaults (w : World) (username : String)
    (settings : List (String × SettingVal))
    (hnomem : ∀ p ∈ settings, p.1 ≠ "memory_limit") :
    (PoolManager.UpdatePoolConfig w username settings).1 =
      .error ("failed to get pool from database: " ++ "no such column: provider") ∧
    (PoolManager.UpdatePoolConfig w username settings).2 = w ∧
    ∀ group socketPath,
      (applyPoolSettings (DefaultPoolConfigData username group socketPath)
          settings).MemoryLimit = "128M" ∧
      (applyPoolSettings (DefaultPoolConfigData username group socketPath)
          [("max_children", SettingVal.num 80)]).MaxChildren = 80 := by
  refine ⟨?_, ?_, ?_⟩
  · simp only [PoolManager.UpdatePoolConfig, dbGetPool_always_errors]
  · simp only [PoolManager.UpdatePoolConfig, dbGetPool_always_errors]
  · intro group socketPath
    exact ⟨applyPoolSettings_memoryLimit _ settings hnomem,
           by simp [applyPoolSettings, applyPoolSetting]⟩

/-- Witness for C2's amended claim at the scenario's inputs. -/
theorem c2_amended_resets_to_defaults_witness :
    (PoolManager.UpdatePoolConfig c2World "alice" c2Overrides).1 =
      .error ("failed to get pool from database: " ++ "no such column: provider") ∧
    (PoolManager.UpdatePoolConfig c2World "alice" c2Overrides).2 = c2World ∧
    ∀ group socketPath,
      (applyPoolSettings (DefaultPoolConfigData "alice" group socketPath)
          c2Overrides).MemoryLimit = "128M" ∧
      (applyPoolSettings (DefaultPoolConfigData "alice" group socketPath)
          [("max_children", SettingVal.num 80)]).MaxChildren = 80 :=
  c2_amended_resets_to_defaults c2World "alice" c2Overrides
    (by intro p hp; simp only [c2Overrides, List.mem_singleton] at hp; subst hp; decide)

/-! ## C5 -/

/-- C5: when a configuration file already exists at the provider-computed
path, `CreatePool` fails with the already-exists error and changes nothing:
file contents, registry rows and supervisor reloads are all untouched (only
`MkdirAll` on the pool directory has run, which touches no file). -/
theorem c5_no_overwrite (w : World) (username phpVersion providerType : String)
    (u : GoUser) (pt : ProviderType)
    (hu : lookupUser w username = some u)
    (hpt : parseProviderType providerType = some pt)
    (hfile : statFile w (providerConfigPath pt w.osFamily username phpVersion) = true) :
    (PoolManager.CreatePool w username phpVersion providerType).1 =
      .error ("pool for user " ++ username ++ " with PHP " ++ phpVersion ++
        " and provider " ++ providerType ++ " already exists") ∧
    (PoolManager.CreatePool w username phpVersion providerType).2.files = w.files ∧
    (PoolManager.CreatePool w username phpVersion providerType).2.pools = w.pools ∧
    (PoolManager.CreatePool w username phpVersion providerType).2.reloads = w.reloads := by
  simp only [PoolManager.CreatePool, hu, hpt, statFile_mkdirAll, hfile, if_true,
    mkdirAll_files, mkdirAll_pools, mkdirAll_reloads]
  exact ⟨trivial, trivial, trivial, trivial⟩

/-- C5 witness world: alice's config file already exists at the Debian remi
path. -/
def c5World : World where
  osFamily := .debian
  users := [{ name := "alice", uid := "1000", gid := "1000" }]
  groups := [("1000", "alice")]
  files := [("/etc/php/8.2/fpm/pool.d/alice.conf", "existing content")]
  dirs := ["/etc/php/8.2/fpm/pool.d"]
  pools := []
  phpVersions := []
  reloads := []
  failReload := []
  failPoolInsert := false
  clock := 0

/-- Witness for C5 at the concrete world. -/
theorem c5_no_overwrite_witness :
    (PoolManager.CreatePool c5World "alice" "8.2" "remi").1 =
      .error ("pool for user " ++ "alice" ++ " with PHP " ++ "8.2" ++
        " and provider " ++ "remi" ++ " already exists") ∧
    (PoolManager.CreatePool c5World "alice" "8.2" "remi").2.files = c5World.files ∧
    (PoolManager.CreatePool c5World "alice" "8.2" "remi").2.pools = c5World.pools ∧
    (PoolManager.CreatePool c5World "alice" "8.2" "remi").2.reloads = c5World.reloads :=
  c5_no_overwrite c5World "alice" "8.2" "remi"
    { name := "alice", uid := "1000", gid := "1000" } ProviderType.remi rfl rfl rfl

/-! ## C9 -/

/-- C9 world: bob's registry row exists but the config file has been
externally removed — exactly the claim's scenario. -/
def c9World : World where
  osFamily := .debian
  users := [{ name := "bob", uid := "1001", gid := "1001" }]
  groups := [("1001", "bob")]
  files := []
  dirs := []
  pools := [{ username := "bob", phpVersion := "8.2", provider := "remi",
              socketPath := "/var/run/php/php8.2-bob.sock",
              configPath := "/etc/php/8.2/fpm/pool.d/bob.conf",
              status := "active", createdAt := 3, updatedAt := 3 }]
  phpVersions := [{ version := "8.2", packageManager := "remi",
                    osFamily := "debian", status := "active" }]
  reloads := []
  failReload := []
  failPoolInsert := false
  clock := 4

/-- C9: evaluation at the failing input. `DeletePool("bob")` on a registry
holding bob's row, with no file at its config path, does not succeed: it
fails at its very first step — `db.GetPool` errors because its SELECT names
the `provider` column `initSchema` never creates — and leaves the world,
registry row included, untouched. The claim states the intended behavior:
`DeletePool`'s own body implements exactly the tolerant flow (os.Stat, skip
a missing file, delete the row), and the repository's API documentation
documents the delete succeeding; only the models.go/database.go schema
mismatch breaks it, so the code, not the claim, is at fault. -/
theorem c9_code_bug_eval :
    (PoolManager.DeletePool c9World "bob").1 =
      .error ("failed to get pool from database: " ++ "no such column: provider") ∧
    (PoolManager.DeletePool c9World "bob").2 = c9World := ⟨rfl, rfl⟩

/-! ## C1 -/

/-- The PHP-version auto-registration step never fails and touches only the
php_versions table. -/
lemma ensurePHPVersion_fields (w : World) (v p : String) :
    ∃ w', ensurePHPVersion w v p = .ok w' ∧ w'.pools = w.pools ∧
      w'.files = w.files ∧ w'.dirs = w.dirs ∧ w'.reloads = w.reloads ∧
      w'.failPoolInsert = w.failPoolInsert ∧ w'.clock = w.clock ∧
      w'.failReload = w.failReload := by
  unfold ensurePHPVersion
  cases hfind : Db.GetPHPVersion w.phpVersions v with
  | some x => exact ⟨w, rfl, rfl, rfl, rfl, rfl, rfl, rfl, rfl⟩
  | none =>
    have hany : w.phpVersions.any (fun r => r.version == v) = false := by
      unfold Db.GetPHPVersion at hfind
      rw [List.any_eq_false]
      intro x hx
      simpa using List.find?_eq_none.mp hfind x hx
    simp only [Db.CreatePHPVersion, hany, Bool.false_eq_true, if_false]
    exact ⟨_, rfl, rfl, rfl, rfl, rfl, rfl, rfl, rfl⟩

/-- C1: when the registry insert of the pool row fails after the
configuration file was rendered and written, `CreatePool` removes the
just-written file before surfacing the registry error: afterwards the file
is absent and the pools table is exactly what it was — in particular no row
for the new pool exists. -/
theorem c1_create_rollback (w : World) (username phpVersion providerType : String)
    (u : GoUser) (pt : ProviderType)
    (hu : lookupUser w username = some u)
    (hpt : parseProviderType providerType = some pt)
    (hfile : fileContent w (providerConfigPath pt w.osFamily username phpVersion) = none)
    (hgen : ∃ cfg, PoolManager.generatePoolConfig w username u.uid u.gid
        (providerSocketPath pt w.osFamily username phpVersion) phpVersion = .ok cfg)
    (hfail : w.failPoolInsert = true)
    (hrow : ∀ r ∈ w.pools, ¬(r.username = username ∧ r.phpVersion = phpVersion)) :
    (∃ e, (PoolManager.CreatePool w username phpVersion providerType).1 = .error e) ∧
    fileContent (PoolManager.CreatePool w username phpVersion providerType).2
      (providerConfigPath pt w.osFamily username phpVersion) = none ∧
    (PoolManager.CreatePool w username phpVersion providerType).2.pools = w.pools ∧
    ∀ r ∈ (PoolManager.CreatePool w username phpVersion providerType).2.pools,
      ¬(r.username = username ∧ r.phpVersion = phpVersion) := by
  obtain ⟨cfg, hcfg⟩ := hgen
  have hstat : statFile (mkdirAll w (fpDir (providerConfigPath pt w.osFamily username phpVersion)))
      (providerConfigPath pt w.osFamily username phpVersion) = false := by
    simp [statFile, hfile]
  have hcfg2 : PoolManager.generatePoolConfig
      (mkdirAll w (fpDir (providerConfigPath pt w.osFamily username phpVersion)))
      username u.uid u.gid (providerSocketPath pt w.osFamily username phpVersion)
      phpVersion = .ok cfg := hcfg
  obtain ⟨w3, hens, hpools, hfiles, _, _, hfailp, _, _⟩ :=
    ensurePHPVersion_fields
      (mkdirAll (writeFile (mkdirAll w (fpDir (providerConfigPath pt w.osFamily username phpVersion)))
        (providerConfigPath pt w.osFamily username phpVersion) cfg)
        (fpDir (providerSocketPath pt w.osFamily username phpVersion)))
      phpVersion providerType
  have hfailw3 : w3.failPoolInsert = true := by
    rw [hfailp]; exact hfail
  have hdb : Db.CreatePool w3.failPoolInsert w3.clock w3.pools username phpVersion
      providerType (providerSocketPath pt w.osFamily username phpVersion)
      (providerConfigPath pt w.osFamily username phpVersion) = .error "database error" := by
    rw [hfailw3]; rfl
  have hres : PoolManager.CreatePool w username phpVersion providerType =
      (.error ("failed to save pool to database: " ++ "database error"),
       removeFile w3 (providerConfigPath pt w.osFamily username phpVersion)) := by
    simp only [PoolManager.CreatePool, hu, hpt, hstat, Bool.false_eq_true, if_false,
      hcfg2, hens, hdb]
  rw [hres]
  have hpools' : w3.pools = w.pools := by
    rw [hpools]; rfl
  refine ⟨⟨_, rfl⟩, ?_, ?_, ?_⟩
  · exact fileContent_removeFile_self _ _
  · simpa [removeFile_pools] using hpools'
  · intro r hr
    exact hrow r (by simpa [removeFile_pools, hpools'] using hr)

/-- C1 witness world: carol exists, no file, no rows, and the registry
insert is set to fail. -/
def c1World : World where
  osFamily := .rhel
  users := [{ name := "carol", uid := "1002", gid := "1002" }]
  groups := [("1002", "carol")]
  files := []
  dirs := []
  pools := []
  phpVersions := []
  reloads := []
  failReload := []
  failPoolInsert := true
  clock := 9

set_option maxRecDepth 100000 in
/-- Witness for C1 at the concrete world. -/
theorem c1_create_rollback_witness :
    (∃ e, (PoolManager.CreatePool c1World "carol" "8.2" "remi").1 = .error e) ∧
    fileContent (PoolManager.CreatePool c1World "carol" "8.2" "remi").2
      (providerConfigPath ProviderType.remi c1World.osFamily "carol" "8.2") = none ∧
    (PoolManager.CreatePool c1World "carol" "8.2" "remi").2.pools = c1World.pools ∧
    ∀ r ∈ (PoolManager.CreatePool c1World "carol" "8.2" "remi").2.pools,
      ¬(r.username = "carol" ∧ r.phpVersion = "8.2") :=
  c1_create_rollback c1World "carol" "8.2" "remi"
    { name := "carol", uid := "1002", gid := "1002" } ProviderType.remi
    rfl rfl rfl ⟨_, by rfl⟩ rfl (by intro r hr; cases hr)

/-! ## C3 -/

/-- C3 world: bob exists, nothing else; no fault is injected. -/
def c3World : World where
  osFamily := .debian
  users := [{ name := "bob", uid := "1001", gid := "1001" }]
  groups := [("1001", "bob")]
  files := []
  dirs := []
  pools := []
  phpVersions := []
  reloads := []
  failReload := []
  failPoolInsert := false
  clock := 1

set_option maxRecDepth 100000 in
/-- C3 counterexample: `CreatePool("bob", "9.9", "remi")` does not fail
with a validation error before any filesystem write. No version validation
happens at all: the call creates the version-9.9 pool directory (which
persists), writes the configuration file, auto-registers version 9.9 in
the registry (that row persists), and only then fails — at the pool-row
insert, which always errors against the shipped schema — whereupon the
just-written file is removed again. The failure is a registry error after
the filesystem writes, not a validation error before them. ("9.9" is not
even rejected by the only version policy in the code,
`RemiProvider.versionCheck` inside InstallPHP, which refuses only versions
below 7.4.) -/
theorem c3_counterexample :
    (PoolManager.CreatePool c3World "bob" "9.9" "remi").1 =
      .error ("failed to save pool to database: " ++
        "table pools has no column named provider") ∧
    "/etc/php/9.9/fpm/pool.d" ∈ (PoolManager.CreatePool c3World "bob" "9.9" "remi").2.dirs ∧
    (∃ pv ∈ (PoolManager.CreatePool c3World "bob" "9.9" "remi").2.phpVersions,
      pv.version = "9.9") ∧
    fileContent (PoolManager.CreatePool c3World "bob" "9.9" "remi").2
      "/etc/php/9.9/fpm/pool.d/bob.conf" = none ∧
    RemiProvider.versionCheck "9.9" = .ok () := by
  refine ⟨by rfl, ?_, ?_, by rfl, by rfl⟩
  · show "/etc/php/9.9/fpm/pool.d" ∈ ["/var/run/php", "/etc/php/9.9/fpm/pool.d"]
    simp
  · refine ⟨{ version := "9.9", packageManager := "remi",
              osFamily := "debian", status := "active" }, ?_, rfl⟩
    show _ ∈ [({ version := "9.9", packageManager := "remi",
                 osFamily := "debian", status := "active" } : PHPVersionRow)]
    simp

/-- C3 amended: `CreatePool` applies no version policy: for every version
string whatsoever — "9.9" included — once its user, provider and free-path
preconditions hold it creates the pool directory, writes the configuration
file and registers the version, and then fails at the pool-row insert
(always broken against the shipped schema: the INSERT names a `provider`
column the pools table lacks), removing the just-written file and
surfacing the registry error. So the call always fails, but with a
registry error after the filesystem writes — never with a version
validation error before them — and the created pool directory persists. -/
theorem c3_amended_no_version_validation (w : World)
    (username phpVersion providerType : String) (u : GoUser) (pt : ProviderType)
    (hu : lookupUser w username = some u)
    (hpt : parseProviderType providerType = some pt)
    (hfile : fileContent w (providerConfigPath pt w.osFamily username phpVersion) = none)
    (hgen : ∃ cfg, PoolManager.generatePoolConfig w username u.uid u.gid
        (providerSocketPath pt w.osFamily username phpVersion) phpVersion = .ok cfg)
    (hfail : w.failPoolInsert = false) :
    (PoolManager.CreatePool w username phpVersion providerType).1 =
      .error ("failed to save pool to database: " ++
        "table pools has no column named provider") ∧
    fpDir (providerConfigPath pt w.osFamily username phpVersion) ∈
      (PoolManager.CreatePool w username phpVersion providerType).2.dirs ∧
    fileContent (PoolManager.CreatePool w username phpVersion providerType).2
      (providerConfigPath pt w.osFamily username phpVersion) = none := by
  obtain ⟨cfg, hcfg⟩ := hgen
  have hstat : statFile (mkdirAll w (fpDir (providerConfigPath pt w.osFamily username phpVersion)))
      (providerConfigPath pt w.osFamily username phpVersion) = false := by
    simp [statFile, hfile]
  have hcfg2 : PoolManager.generatePoolConfig
      (mkdirAll w (fpDir (providerConfigPath pt w.osFamily username phpVersion)))
      username u.uid u.gid (providerSocketPath pt w.osFamily username phpVersion)
      phpVersion = .ok cfg := hcfg
  obtain ⟨w3, hens, hpools, hfiles, hdirs, _, hfailp, _, _⟩ :=
    ensurePHPVersion_fields
      (mkdirAll (writeFile (mkdirAll w (fpDir (providerConfigPath pt w.osFamily username phpVersion)))
        (providerConfigPath pt w.osFamily username phpVersion) cfg)
        (fpDir (providerSocketPath pt w.osFamily username phpVersion)))
      phpVersion providerType
  have hfailw3 : w3.failPoolInsert = false := by
    rw [hfailp]; exact hfail
  have hdb : Db.CreatePool w3.failPoolInsert w3.clock w3.pools
      username phpVersion providerType
      (providerSocketPath pt w.osFamily username phpVersion)
      (providerConfigPath pt w.osFamily username phpVersion) =
      .error "table pools has no column named provider" := by
    rw [hfailw3]
    exact dbCreatePool_always_errors _ _ _ _ _ _ _
  have hres : PoolManager.CreatePool w username phpVersion providerType =
      (.error ("failed to save pool to database: " ++
        "table pools has no column named provider"),
       removeFile w3 (providerConfigPath pt w.osFamily username phpVersion)) := by
    simp only [PoolManager.CreatePool, hu, hpt, hstat, Bool.false_eq_true, if_false,
      hcfg2, hens, hdb]
  rw [hres]
  refine ⟨rfl, ?_, fileContent_removeFile_self _ _⟩
  have h1 : fpDir (providerConfigPath pt w.osFamily username phpVersion) ∈
      (mkdirAll w (fpDir (providerConfigPath pt w.osFamily username phpVersion))).dirs :=
    mem_mkdirAll_self _ _
  have h2 : fpDir (providerConfigPath pt w.osFamily username phpVersion) ∈
      (mkdirAll (writeFile (mkdirAll w (fpDir (providerConfigPath pt w.osFamily username phpVersion)))
        (providerConfigPath pt w.osFamily username phpVersion) cfg)
        (fpDir (providerSocketPath pt w.osFamily username phpVersion))).dirs :=
    mem_mkdirAll_of_mem _ _ _ h1
  simpa [removeFile_dirs, hdirs] using h2

set_option maxRecDepth 100000 in
/-- Witness for C3's amended claim: version "9.9" on the concrete world. -/
theorem c3_amended_no_version_validation_witness :
    (PoolManager.CreatePool c3World "bob" "9.9" "remi").1 =
      .error ("failed to save pool to database: " ++
        "table pools has no column named provider") ∧
    fpDir (providerConfigPath ProviderType.remi c3World.osFamily "bob" "9.9") ∈
      (PoolManager.CreatePool c3World "bob" "9.9" "remi").2.dirs ∧
    fileContent (PoolManager.CreatePool c3World "bob" "9.9" "remi").2
      (providerConfigPath ProviderType.remi c3World.osFamily "bob" "9.9") = none :=
  c3_amended_no_version_validation c3World "bob" "9.9" "remi"
    { name := "bob", uid := "1001", gid := "1001" } ProviderType.remi
    rfl rfl rfl ⟨_, by rfl⟩ rfl

end LPHP
